import Mathlib

/-!
Shallow embedding of the page-interaction layer: four browser-side scripts
(theme toggle, weather widget fetcher, news-card click handler, cursor
follower), each modelled as a pure function on an explicit fragment of the
DOM / cookie state it touches.
-/

/-- JavaScript truthiness of a possibly-absent string value: an absent value
(JS undefined) and the empty string are falsy; every other string is truthy.
Used to model the idioms `x || d` and `if (x)` found in the scripts. -/
def jsTruthy : Option String → Bool
  | none => false
  | some s => !(s == "")

/-- The JS idiom `x || d` on a possibly-absent string: yields the stored
string when it is truthy, the default otherwise. -/
def jsOrDefault (v : Option String) (d : String) : String :=
  if jsTruthy v then v.getD d else d

/-- JS template-string interpolation of a possibly-missing property: an
absent property (undefined) prints as the literal string undefined. -/
def jsInterp : Option String → String
  | none => "undefined"
  | some s => s

/-- The slice of browser state the theme-toggle script touches: the theme
attribute on the document element (dataset.theme; absent when unset) and the
last cookie string assigned to document.cookie (absent before any write). -/
structure ThemeState where
  themeAttr : Option String
  cookie : Option String
deriving Repr, DecidableEq

/-- The click handler installed on the theme-toggle element (source file
unnamed/part_000): read current = dataset.theme || "dark", compute next as
"light" when current equals "dark" and "dark" otherwise, write next to the
theme attribute and assign the cookie string. -/
def toggleClick (s : ThemeState) : ThemeState :=
  let current := jsOrDefault s.themeAttr "dark"
  let next := if current == "dark" then "light" else "dark"
  { themeAttr := some next
    cookie := some ("theme=" ++ next ++ ";path=/;max-age=31536000;Secure;SameSite=Lax") }

/-- The click handler attached to a news card (news.js): read the per-card
data-url attribute; when truthy, make one window.open call with that URL in
a new browsing context. The result lists the URLs of the open calls made. -/
def cardClick (dataUrl : Option String) : List String :=
  let link := dataUrl
  if jsTruthy link then [link.getD ""] else []

/-- The JSON body the weather endpoint returns, as far as loadWeather reads
it: an optional title property (none models a missing property). -/
structure WeatherJson where
  title : Option String
deriving Repr, DecidableEq

/-- Outcome of the fetch of /api/weather as observed by loadWeather: the
fetch itself may throw (network error); otherwise a response arrives with an
ok flag (true for 2xx) and a body whose JSON parse may itself throw. -/
inductive FetchOutcome where
  | fetchError
  | response (ok : Bool) (body : Except Unit WeatherJson)

/-- The body of the try block of loadWeather (weather.js): await the fetch
(propagating a thrown network error), return early leaving the element
unchanged when resp.ok is false, await the JSON parse (propagating a parse
error), and when the display element exists set its text to the interpolated
title. The element state is the text of the weather-chip element, or none
when the element is absent. -/
def loadWeatherTry : FetchOutcome → Option String → Except Unit (Option String)
  | .fetchError, _ => .error ()
  | .response ok body, el =>
    if !ok then .ok el
    else
      match body with
      | .error _ => .error ()
      | .ok data =>
        match el with
        | none => .ok none
        | some _ => .ok (some (jsInterp data.title))

/-- loadWeather wraps its body in try/catch: any exception is caught and
logged, leaving the display element unchanged, so the function itself is
total and never propagates an exception to its caller. -/
def loadWeather (o : FetchOutcome) (el : Option String) : Option String :=
  match loadWeatherTry o el with
  | .ok el2 => el2
  | .error _ => el

/-- Does the weather fetch count as failed: the fetch threw, the response
status was non-2xx, or the JSON parse threw. -/
def fetchFailed : FetchOutcome → Bool
  | .fetchError => true
  | .response ok body =>
    !ok || (match body with | .error _ => true | .ok _ => false)

/-- The inline style fields the cursor-effect script writes: the left and
top offsets of the decorative element. -/
structure CursorStyle where
  left : String
  top : String
deriving Repr, DecidableEq

/-- The mousemove handler (effects.js): when the cursor-effect element
exists, set its left offset to pageX ++ "px" and its top offset to
pageY ++ "px"; when it is absent, do nothing. -/
def mousemoveHandler (pageX pageY : Int) : Option CursorStyle → Option CursorStyle
  | none => none
  | some _ => some { left := toString pageX ++ "px", top := toString pageY ++ "px" }

/-- Claim C1: for every initial theme preference (a theme attribute holding
one of the enumerated preference values dark or light), performing the
theme-toggle click twice returns the theme attribute of the document to its
original value. -/
theorem theme_double_toggle (s : ThemeState)
    (h : s.themeAttr = some "dark" ∨ s.themeAttr = some "light") :
    (toggleClick (toggleClick s)).themeAttr = s.themeAttr := by
  rcases s with ⟨a, c⟩
  rcases h with h | h <;> simp only at h <;> subst h <;> rfl

/-- Witness for C1 at the concrete initial state with theme light. -/
theorem theme_double_toggle_witness :
    (⟨some "light", none⟩ : ThemeState).themeAttr = some "light" ∧
    (toggleClick (toggleClick ⟨some "light", none⟩)).themeAttr = some "light" :=
  ⟨rfl, theme_double_toggle ⟨some "light", none⟩ (Or.inr rfl)⟩

/-- Claim C2: every theme-toggle click writes exactly the cookie string
theme=value;path=/;max-age=31536000;Secure;SameSite=Lax, where value is the
newly computed preference (the value simultaneously written to the theme
attribute), carrying path=/, max-age 31536000, Secure and SameSite=Lax. -/
theorem toggle_cookie_exact (s : ThemeState) :
    (toggleClick s).cookie =
      some ("theme=" ++ (toggleClick s).themeAttr.getD ""
        ++ ";path=/;max-age=31536000;Secure;SameSite=Lax") := by
  rfl

/-- Counterexample to claim C3 as stated: a card whose data-url attribute is
present but holds the empty string makes no open call, while the claim as
stated demands exactly one open call with that (empty) URL. -/
theorem card_click_cex : ¬ (cardClick (some "") = [""]) := by
  decide

/-- Claim C3 (amended): a card whose data-url attribute is present with a
nonempty value makes exactly one new-context open call with exactly that
URL; a card with no data-url attribute, or with the attribute present but
empty, makes none. -/
theorem card_click_amended (u : String) (hu : u ≠ "") :
    cardClick (some u) = [u] ∧ cardClick none = [] ∧ cardClick (some "") = [] := by
  refine ⟨?_, rfl, rfl⟩
  simp only [cardClick, jsTruthy, Option.getD]
  rw [if_pos]
  simpa using hu

/-- Witness for the amended C3 at the URL from the spec example. -/
theorem card_click_amended_witness :
    ("https://example.com" : String) ≠ "" ∧
    (cardClick (some "https://example.com") = ["https://example.com"] ∧
      cardClick none = [] ∧ cardClick (some "") = []) :=
  ⟨by decide, card_click_amended "https://example.com" (by decide)⟩

/-- Claim C4: for every failed weather fetch, whether by non-2xx status, a
network error thrown by the fetch, or a parse error thrown by the JSON read,
the exception (if any) is caught inside loadWeather, which returns normally
and leaves the display element state unchanged. -/
theorem load_weather_failure_no_change (o : FetchOutcome) (el : Option String)
    (h : fetchFailed o = true) : loadWeather o el = el := by
  cases o with
  | fetchError => rfl
  | response ok body =>
    cases ok with
    | false => cases body <;> rfl
    | true =>
      cases body with
      | error e => rfl
      | ok data => simp [fetchFailed] at h

/-- Witness for C4 at the concrete outcome of a thrown fetch, with the
display element initially reading old. -/
theorem load_weather_failure_witness :
    fetchFailed FetchOutcome.fetchError = true ∧
    loadWeather FetchOutcome.fetchError (some "old") = some "old" :=
  ⟨rfl, load_weather_failure_no_change FetchOutcome.fetchError (some "old") rfl⟩

/-- Claim C5: for every 2xx response whose JSON body has title Sunny, when
the display element exists, loadWeather sets its text to exactly Sunny. -/
theorem load_weather_success_title (t : String) :
    loadWeather (.response true (.ok ⟨some "Sunny"⟩)) (some t) = some "Sunny" := by
  rfl

/-- Claim C6: when the theme attribute of the document is unset at click
time, the current preference defaults to dark, so the first toggle writes
light to both the theme attribute and the cookie. -/
theorem first_toggle_from_unset (c : Option String) :
    (toggleClick ⟨none, c⟩).themeAttr = some "light" ∧
    (toggleClick ⟨none, c⟩).cookie =
      some "theme=light;path=/;max-age=31536000;Secure;SameSite=Lax" :=
  ⟨rfl, rfl⟩

/-- Claim C7: on every pointer move to page coordinates (x, y), when the
decorative cursor element exists its left offset becomes x ++ px and its top
offset y ++ px; when the element is absent nothing changes. -/
theorem mousemove_sets_offsets (x y : Int) (c : CursorStyle) :
    mousemoveHandler x y (some c) =
      some ⟨toString x ++ "px", toString y ++ "px"⟩ ∧
    mousemoveHandler x y none = none :=
  ⟨rfl, rfl⟩

/-- Counterexample to claim C8 as stated: the empty string is a prior value
other than the exact string dark, yet the toggle maps it to light, not dark,
because the JS or-default treats the empty string as falsy and so as the
default dark, whose opposite is light. -/
theorem toggle_empty_prior_cex :
    ¬ ((toggleClick ⟨some "", none⟩).themeAttr = some "dark") := by
  decide

/-- Claim C8 (amended): after every theme-toggle click the value written is
a member of the set containing dark and light, and the theme attribute and
the cookie theme value are written equal to each other; every prior value
other than the exact string dark and other than the empty string maps to
dark (the empty string, being falsy, is treated as unset and maps to
light). -/
theorem toggle_invariant_amended (s : ThemeState) :
    ((toggleClick s).themeAttr = some "dark" ∨ (toggleClick s).themeAttr = some "light") ∧
    (toggleClick s).cookie =
      some ("theme=" ++ (toggleClick s).themeAttr.getD ""
        ++ ";path=/;max-age=31536000;Secure;SameSite=Lax") ∧
    (∀ v : String, s.themeAttr = some v → v ≠ "dark" → v ≠ "" →
      (toggleClick s).themeAttr = some "dark") := by
  refine ⟨?_, rfl, ?_⟩
  · by_cases h : jsOrDefault s.themeAttr "dark" == "dark"
    · right
      simp [toggleClick, h]
    · left
      simp only [Bool.not_eq_true] at h
      simp [toggleClick, h]
  · intro v hv hd he
    rcases s with ⟨a, c⟩
    simp only at hv
    subst hv
    have htr : jsTruthy (some v) = true := by
      simp [jsTruthy, he]
    have hcur : jsOrDefault (some v) "dark" = v := by
      simp [jsOrDefault, htr]
    have hne : (v == "dark") = false := by
      simpa using hd
    simp [toggleClick, hcur, hne]

/-- Witness for the amended C8 at the concrete prior value blue. -/
theorem toggle_invariant_amended_witness :
    (⟨some "blue", none⟩ : ThemeState).themeAttr = some "blue" ∧
    (toggleClick ⟨some "blue", none⟩).themeAttr = some "dark" :=
  ⟨rfl, (toggle_invariant_amended ⟨some "blue", none⟩).2.2 "blue" rfl
    (by decide) (by decide)⟩

/-- Claim C9: for every 2xx response whose JSON body lacks a title field,
loadWeather sets the display element text to the literal string undefined,
via template-string interpolation of the missing property, rather than
leaving it unchanged or failing. -/
theorem load_weather_missing_title (t : String) :
    loadWeather (.response true (.ok ⟨none⟩)) (some t) = some "undefined" := by
  rfl

/-- Claim C10: a click on a news card whose data-url attribute is present
but equal to the empty string makes no new-context open call: the handler
tests the attribute value for truthiness, and the empty string is falsy. -/
theorem card_click_empty_url_inert : cardClick (some "") = [] := by
  rfl
